import Mathlib

/-!
Shallow embedding of the stotra-multispeaker session/recording orchestration
core (server/services/sessionService.js, recordingService.js,
recordingStorage.js and the routes in server/routes/sessions.js and
webhooks.js), together with theorems settling the specification's claims.

State is modelled by explicit passing: the JS `Map` registries become
association lists ordered by insertion (mirroring JS `Map` iteration order),
timestamps become integers (milliseconds since epoch), thrown exceptions
become `Except`, and `undefined`/`null` fields become `Option`.
-/

set_option autoImplicit false

namespace Stotra

/-- A session record, as created by `SessionService.createSession` and
mutated in place by the other registry operations.  `creatorIdentity` is
absent on freshly created sessions and is assigned by the join route. -/
structure Session where
  sessionId : String
  roomName : String
  creatorIdentity : Option String
  createdAt : Int
  participants : List String
  isRecording : Bool
  recordingEgressId : Option String
  recordingStartedAt : Option Int
  deriving Repr, DecidableEq

/-- The in-memory session registry (`this.sessions`, a JS `Map` keyed by
`sessionId`), modelled as an insertion-ordered list of sessions. -/
abbrev Registry := List Session

/-- `SessionService.getSession`: lookup by id, `null` when absent. -/
def getSession (st : Registry) (sessionId : String) : Option Session :=
  st.find? (fun s => s.sessionId == sessionId)

/-- JS `Map.set` semantics on the registry: replace the entry holding the
same key in place, otherwise append at the end. -/
def mapSet (st : Registry) (sess : Session) : Registry :=
  if (getSession st sess.sessionId).isSome then
    st.map (fun s => if s.sessionId == sess.sessionId then sess else s)
  else
    st ++ [sess]

/-- The session object built by `SessionService.createSession`: all flags
false/absent, `roomName` equal to the session id. -/
def freshSession (sessionId : String) (now : Int) : Session :=
  { sessionId := sessionId
    roomName := sessionId
    creatorIdentity := none
    createdAt := now
    participants := []
    isRecording := false
    recordingEgressId := none
    recordingStartedAt := none }

/-- `SessionService.createSession`: the randomly generated id is passed in
explicitly (randomness externalized). -/
def createSession (st : Registry) (generatedId : String) (now : Int) :
    Session × Registry :=
  let s := freshSession generatedId now
  (s, mapSet st s)

/-- In-place mutation of the session stored under `sessionId` (JS mutates
the object held by the `Map`, leaving every other entry untouched). -/
def updateSession (st : Registry) (sessionId : String) (f : Session → Session) :
    Registry :=
  st.map (fun s => if s.sessionId == sessionId then f s else s)

/-- `SessionService.addParticipant`: throws when the session is absent,
otherwise pushes the identity unless already included. -/
def addParticipant (st : Registry) (sessionId participantIdentity : String) :
    Except String Registry :=
  match getSession st sessionId with
  | none => .error ("Session " ++ sessionId ++ " not found")
  | some _ => .ok (updateSession st sessionId (fun s =>
      if s.participants.contains participantIdentity then s
      else { s with participants := s.participants ++ [participantIdentity] }))

/-- `SessionService.removeParticipant`: a warning-only no-op when the
session is absent, otherwise filters the identity out. -/
def removeParticipant (st : Registry) (sessionId participantIdentity : String) :
    Registry :=
  updateSession st sessionId (fun s =>
    { s with participants := s.participants.filter (fun p => p != participantIdentity) })

/-- `SessionService.getParticipantCount`. -/
def getParticipantCount (st : Registry) (sessionId : String) : Nat :=
  match getSession st sessionId with
  | some s => s.participants.length
  | none => 0

/-- `SessionService.setRecording`: throws when the session is absent,
otherwise sets the flag, the egress id and the start timestamp. -/
def setRecording (st : Registry) (sessionId egressId : String) (now : Int) :
    Except String Registry :=
  match getSession st sessionId with
  | none => .error ("Session " ++ sessionId ++ " not found")
  | some _ => .ok (updateSession st sessionId (fun s =>
      { s with isRecording := true
               recordingEgressId := some egressId
               recordingStartedAt := some now }))

/-- `SessionService.clearRecording`: warning-only no-op when the session is
absent, otherwise clears the flag and the egress id. -/
def clearRecording (st : Registry) (sessionId : String) : Registry :=
  updateSession st sessionId (fun s =>
    { s with isRecording := false, recordingEgressId := none })

/-- `SessionService.getAllSessions`. -/
def getAllSessions (st : Registry) : List Session := st

/-- One registry operation, for reasoning about reachable registry states. -/
inductive RegOp where
  | create (generatedId : String) (now : Int)
  | addP (sessionId participantIdentity : String)
  | removeP (sessionId participantIdentity : String)
  | setRec (sessionId egressId : String) (now : Int)
  | clearRec (sessionId : String)
  deriving Repr, DecidableEq

/-- Apply one registry operation; a thrown exception leaves the state
unchanged (the JS methods throw before mutating anything). -/
def applyOp (st : Registry) : RegOp → Registry
  | .create gid now => (createSession st gid now).2
  | .addP sid p =>
    match addParticipant st sid p with
    | .ok st' => st'
    | .error _ => st
  | .removeP sid p => removeParticipant st sid p
  | .setRec sid eid now =>
    match setRecording st sid eid now with
    | .ok st' => st'
    | .error _ => st
  | .clearRec sid => clearRecording st sid

/-- Registry state reached by a sequence of operations from the empty
initial registry. -/
def applyOps (ops : List RegOp) : Registry := ops.foldl applyOp []

/-- JS `a || b` on possibly-absent values: keep `a` when present,
otherwise `b` (absent strings are modelled as `none`). -/
def jsOr {α : Type} (a b : Option α) : Option α :=
  match a with
  | some x => some x
  | none => b

/-- Prefix test on character lists, for the substring checks the source
performs with `String.prototype.includes`. -/
def leadsWith : List Char → List Char → Bool
  | [], _ => true
  | _ :: _, [] => false
  | p :: ps, c :: cs => p == c && leadsWith ps cs

/-- Whether `pat` occurs as a contiguous sublist. -/
def hasSubAux (pat : List Char) : List Char → Bool
  | [] => pat.isEmpty
  | c :: cs => leadsWith pat (c :: cs) || hasSubAux pat cs

/-- `s.includes(pat)` of JS. -/
def containsSub (s pat : String) : Bool := hasSubAux pat.data s.data

/-- JS `String.prototype.replace` with a plain-string pattern replaces only
the first occurrence. -/
def replaceFirst (s pat rep : String) : String :=
  match s.splitOn pat with
  | [] => s
  | [x] => x
  | x :: xs => x ++ rep ++ String.intercalate pat xs

/-- The R2 object-storage configuration (environment-sourced; unset
variables are modelled as `none`). -/
structure R2Config where
  accessKeyId : Option String
  secretAccessKey : Option String
  bucket : Option String
  endpoint : Option String
  region : Option String
  deriving Repr, DecidableEq

/-- The data object handed to `recordingStorage.saveRecording` by
`handleRecordingComplete`. -/
structure RecordingData where
  sessionId : String
  startedAt : Int
  endedAt : Int
  duration : Int
  r2FileUrl : Option String
  r2FileName : Option String
  egressId : String
  status : Option String
  error : Option String
  deriving Repr, DecidableEq

/-- A stored recording record: exactly the fields
`RecordingStorage.saveRecording` copies into the object it inserts
(`status`, `error` and `r2FileName` of the incoming data are not among
them). -/
structure Recording where
  id : String
  sessionId : String
  startedAt : Int
  endedAt : Int
  duration : Int
  r2FileUrl : Option String
  egressId : String
  createdAt : Int
  deriving Repr, DecidableEq

/-- The in-memory recording metadata store (`this.recordings`, a JS `Map`
keyed by record id), as an insertion-ordered list. -/
abbrev Store := List Recording

/-- JS `Map.set` on the metadata store. -/
def storeSet (store : Store) (r : Recording) : Store :=
  if store.any (fun x => x.id == r.id) then
    store.map (fun x => if x.id == r.id then r else x)
  else
    store ++ [r]

/-- `RecordingStorage.saveRecording`: assigns `id` from the session id and
`Date.now()`, copies the listed fields, inserts under the fresh id and
returns the stored record. -/
def saveRecording (store : Store) (d : RecordingData) (now : Int) :
    Recording × Store :=
  let r : Recording :=
    { id := d.sessionId ++ "-" ++ toString now
      sessionId := d.sessionId
      startedAt := d.startedAt
      endedAt := d.endedAt
      duration := d.duration
      r2FileUrl := d.r2FileUrl
      egressId := d.egressId
      createdAt := now }
  (r, storeSet store r)

/-- A raw egress status as delivered by the external SDK: either a
protobuf enum number or a status string. -/
inductive RawStatus where
  | num (n : Int)
  | str (s : String)
  deriving Repr, DecidableEq

/-- `RecordingService.normalizeStatus`. -/
def normalizeStatus : RawStatus → String
  | .num 0 => "EGRESS_STARTING"
  | .num 1 => "EGRESS_ACTIVE"
  | .num 2 => "EGRESS_ENDING"
  | .num 3 => "EGRESS_COMPLETE"
  | .num 4 => "EGRESS_FAILED"
  | .num 5 => "EGRESS_ABORTED"
  | .num n => "UNKNOWN_" ++ toString n
  | .str s => s

/-- The `file` part of an egress descriptor. -/
structure EgressFile where
  filename : Option String
  filepath : Option String
  location : Option String
  name : Option String
  url : Option String
  deriving Repr, DecidableEq

/-- An egress job descriptor as delivered by `listEgress` or a webhook. -/
structure EgressInfo where
  egressId : String
  status : Option RawStatus
  egressStatus : Option RawStatus
  error : Option String
  errorReason : Option String
  file : Option EgressFile
  deriving Repr, DecidableEq

/-- The host part the code extracts from the R2 endpoint when it has to
construct a file URL itself. -/
def r2Domain (endpoint : String) : String :=
  (((replaceFirst (replaceFirst endpoint "https://" "") "http://" "").splitOn "/").headD "")

/-- Outcome of `handleRecordingComplete`: the updated registry and store,
plus the record returned by `saveRecording` when one was saved. -/
structure CompletionResult where
  registry : Registry
  store : Store
  saved : Option Recording
  deriving Repr, DecidableEq

/-- `RecordingService.handleRecordingComplete` (primary implementation):
classify the terminal status, locate the owning session by scanning for a
matching `recordingEgressId` (returning untouched when none matches),
extract or construct the file URL, compute the duration from the session's
`recordingStartedAt` to now, save exactly one record, and clear the
session's recording flag. -/
def handleRecordingComplete (cfg : R2Config) (st : Registry) (store : Store)
    (egressId : String) (info : EgressInfo) (now : Int) : CompletionResult :=
  let status := (jsOr info.status info.egressStatus).map normalizeStatus
  let isFailed := status == some "EGRESS_FAILED" || status == some "EGRESS_ABORTED"
  match (getAllSessions st).find? (fun s => s.recordingEgressId == some egressId) with
  | none => { registry := st, store := store, saved := none }
  | some session =>
    let fileName : Option String :=
      match info.file with
      | none => none
      | some f => jsOr (jsOr (jsOr f.filename f.filepath) f.location) f.name
    let fileUrl : Option String :=
      match info.file, fileName with
      | some f, some fn =>
        match f.url with
        | some u => some u
        | none =>
          match cfg.bucket, cfg.endpoint with
          | some b, some e => some ("https://" ++ b ++ "." ++ r2Domain e ++ "/" ++ fn)
          | _, _ => none
      | _, _ => none
    let startedAt := session.recordingStartedAt.getD now
    let endedAt := now
    let duration := Int.fdiv (endedAt - startedAt) 1000
    let d : RecordingData :=
      { sessionId := session.sessionId
        startedAt := startedAt
        endedAt := endedAt
        duration := duration
        r2FileUrl := fileUrl
        r2FileName := fileName
        egressId := egressId
        status := status
        error := if isFailed then some ((jsOr info.error info.errorReason).getD "Unknown error") else none }
    let saved := saveRecording store d now
    { registry := clearRecording st session.sessionId
      store := saved.2
      saved := some saved.1 }

/-- A published track as reported by `listParticipants` (protobuf
`TrackType`: audio is `0`). -/
structure Track where
  type : Int
  muted : Bool
  deriving Repr, DecidableEq

/-- A room participant as reported by `listParticipants`. -/
structure Participant where
  identity : String
  tracks : List Track
  deriving Repr, DecidableEq

/-- Externalized outcomes of the external calls `startRecording` makes:
the participant listing (which can throw) and the egress start call. -/
structure StartEnv where
  listParticipants : Except String (List Participant)
  egressStart : Except String String

/-- Whether the four required R2 settings are all configured. -/
def r2ok (cfg : R2Config) : Bool :=
  cfg.accessKeyId.isSome && cfg.secretAccessKey.isSome &&
    cfg.bucket.isSome && cfg.endpoint.isSome

/-- The configuration error `startRecording` throws first. -/
def r2MissingMsg : String :=
  "R2 configuration is missing. Please set R2_ACCESS_KEY, R2_SECRET_KEY, R2_BUCKET, and R2_ENDPOINT environment variables."

/-- The error thrown when the room has no participants. -/
def noParticipantsMsg (roomName : String) : String :=
  "Room " ++ roomName ++ " has no participants. RoomCompositeEgress requires at least one active participant in the room. Please ensure participants have joined the room before starting recording."

/-- The wrap applied when the participant listing itself throws. -/
def connectFailMsg (roomName msg : String) : String :=
  "Failed to connect to LiveKit room " ++ roomName ++ ". Please verify the LiveKit server is running and accessible. Error: " ++ msg

/-- Body of `RecordingService.startRecording` (primary implementation)
before its outer catch: the returned flag records whether
`startRoomCompositeEgress` was invoked.  The inner participant-check catch
rethrows errors whose message includes `no participants` and wraps the
rest; a thrown exception leaves the registry untouched. -/
def startRecordingInner (cfg : R2Config) (env : StartEnv) (st : Registry)
    (roomName sessionId : String) (now : Int) :
    Except String (String × Registry) × Bool :=
  if r2ok cfg then
    match env.listParticipants with
    | .error m =>
      (.error (if containsSub m "no participants" then m else connectFailMsg roomName m),
        false)
    | .ok ps =>
      if ps.length == 0 then
        (.error (noParticipantsMsg roomName), false)
      else
        match env.egressStart with
        | .error m => (.error m, true)
        | .ok eid =>
          match setRecording st sessionId eid now with
          | .error m => (.error m, true)
          | .ok st' => (.ok (eid, st'), true)
  else
    (.error r2MissingMsg, false)

/-- The outer catch of `startRecording`: best-effort reclassification of
the failure by substring matching, always prefixing
`Failed to start recording:`. -/
def wrapStartError (msg : String) : String :=
  if containsSub msg "pulse" then
    "Failed to start recording: PulseAudio is not available on the LiveKit egress service. Audio-only RoomCompositeEgress requires PulseAudio to be installed and running in the egress container. Error: " ++ msg
  else if containsSub msg "Start signal not received" || containsSub msg "connection" || containsSub msg "timeout" then
    "Failed to start recording: The egress service cannot connect to the LiveKit room. This usually means: (1) No participants are in the room, (2) The LiveKit server is not accessible from the egress container, or (3) The WebSocket connection failed. Please verify participants are in the room and the LiveKit server is running. Error: " ++ msg
  else
    "Failed to start recording: " ++ msg

/-- `RecordingService.startRecording` (primary implementation): result,
whether the egress start API was invoked, and the updated registry. -/
def startRecording (cfg : R2Config) (env : StartEnv) (st : Registry)
    (roomName sessionId : String) (now : Int) :
    Except String String × Bool × Registry :=
  match startRecordingInner cfg env st roomName sessionId now with
  | (.ok (eid, st'), called) => (.ok eid, called, st')
  | (.error m, called) => (.error (wrapStartError m), called, st)

/-- An error thrown by `stopEgress`, with the fields the catch blocks
inspect. -/
structure StopErr where
  message : String
  status : Option Int
  code : Option String
  deriving Repr, DecidableEq

/-- Externalized outcomes of the external calls `stopRecording` makes:
the status lookup, the stop call, and the re-query performed after a
precondition-failed stop. -/
structure StopEnv where
  egressLookup : Option EgressInfo
  stopResult : Except StopErr Unit
  relist : Option EgressInfo

/-- Outcome of `stopRecording`: updated state, how many `stopEgress`
requests were issued, and the egress descriptors passed to
`handleRecordingComplete` (in order). -/
structure StopResult where
  registry : Registry
  store : Store
  stopCalls : Nat
  completions : List EgressInfo
  deriving Repr, DecidableEq

/-- `RecordingService.stopRecording` (primary implementation): fetch the
job status; failed/aborted jobs are routed straight into completion
handling, complete/ending jobs are a no-op, active/starting jobs get one
stop request (a precondition-failed stop triggers a re-query and, when the
job turns out failed/aborted, completion handling), anything else gets a
best-effort stop whose errors are only logged. -/
def stopRecording (cfg : R2Config) (env : StopEnv) (st : Registry) (store : Store)
    (egressId : String) (now : Int) : StopResult :=
  match env.egressLookup with
  | none => { registry := st, store := store, stopCalls := 0, completions := [] }
  | some egress =>
    let status := egress.status.map normalizeStatus
    if status == some "EGRESS_FAILED" || status == some "EGRESS_ABORTED" then
      let r := handleRecordingComplete cfg st store egressId egress now
      { registry := r.registry, store := r.store, stopCalls := 0, completions := [egress] }
    else if status == some "EGRESS_COMPLETE" || status == some "EGRESS_ENDING" then
      { registry := st, store := store, stopCalls := 0, completions := [] }
    else if status == some "EGRESS_ACTIVE" || status == some "EGRESS_STARTING" then
      match env.stopResult with
      | .ok _ => { registry := st, store := store, stopCalls := 1, completions := [] }
      | .error e =>
        if e.status == some 412 || e.code == some "failed_precondition" then
          match env.relist with
          | some egress2 =>
            let status2 := egress2.status.map normalizeStatus
            if status2 == some "EGRESS_FAILED" || status2 == some "EGRESS_ABORTED" then
              let r := handleRecordingComplete cfg st store egressId egress2 now
              { registry := r.registry, store := r.store, stopCalls := 1,
                completions := [egress2] }
            else
              { registry := st, store := store, stopCalls := 1, completions := [] }
          | none => { registry := st, store := store, stopCalls := 1, completions := [] }
        else
          { registry := st, store := store, stopCalls := 1, completions := [] }
    else
      { registry := st, store := store, stopCalls := 1, completions := [] }

/-- Modelled from the spec: `isCreator(sessionId, identity) -> bool` of the
Session Registry is called by the recording routes but its definition is
missing from the source files (only its callers are present).  Per the spec
it is the "authorization predicate; the *first* identity to successfully
join an uninitialized session becomes its creator of record": it holds
exactly when the session exists and carries a creator of record equal to
the given identity. -/
def isCreator (st : Registry) (sessionId : String) (identity : Option String) : Bool :=
  match getSession st sessionId with
  | none => false
  | some s => s.creatorIdentity.isSome && s.creatorIdentity == identity

/-- Modelled from the spec: `createOrGetSession(id, identity?) -> Session`
is called by the join route and the webhook handlers but its definition is
missing from the source files.  Per the spec it is an "idempotent upsert":
return the stored session when present, otherwise initialize a session
under exactly the given identifier (all flags false/absent, the optional
identity becoming its tentative creator) and store it. -/
def createOrGetSession (st : Registry) (sessionId : String)
    (identity : Option String) (now : Int) : Session × Registry :=
  match getSession st sessionId with
  | some s => (s, st)
  | none =>
    let s := { freshSession sessionId now with creatorIdentity := identity }
    (s, mapSet st s)

/-- The session `createOrGetSession` initializes on its create path. -/
def newJoinSession (sessionId : String) (identity : Option String) (now : Int) :
    Session :=
  { freshSession sessionId now with creatorIdentity := identity }

/-- `[A-Z0-9]`. -/
def isUpperDigit (c : Char) : Bool :=
  ('A' ≤ c && c ≤ 'Z') || ('0' ≤ c && c ≤ '9')

/-- `[a-zA-Z0-9\-_]`. -/
def isWordHyphen (c : Char) : Bool :=
  ('a' ≤ c && c ≤ 'z') || ('A' ≤ c && c ≤ 'Z') || ('0' ≤ c && c ≤ '9') ||
    c == '-' || c == '_'

/-- The join route's session-id validation: the original 8-10 uppercase
alphanumeric format, or 3-100 alphanumeric characters with
hyphens/underscores (the leading `sessionId &&` truthiness check is the
nonemptiness conjunct). -/
def validSessionIdFormat (s : String) : Bool :=
  s != "" &&
    ((decide (8 ≤ s.length) && decide (s.length ≤ 10) && s.data.all isUpperDigit) ||
     (decide (3 ≤ s.length) && decide (s.length ≤ 100) && s.data.all isWordHyphen))

/-- The payload `TokenService.generateToken` resolves to. -/
structure TokenData where
  token : String
  url : String
  identity : String
  roomName : String
  deriving Repr, DecidableEq

/-- `TokenService.generateToken`: synthesizes an identity from the clock
and a random suffix when none is given, and delegates signing to the
external credential library (externalized here as `sign`). -/
def generateToken (sign : String → String → String) (lkUrl : String)
    (roomName : String) (identity : Option String) (now : Int)
    (randSuffix : String) : TokenData :=
  let userIdentity := identity.getD ("user-" ++ toString now ++ "-" ++ randSuffix)
  { token := sign roomName userIdentity
    url := lkUrl
    identity := userIdentity
    roomName := roomName }

/-- Outcome of the join route: HTTP status, updated registry, and the
token payload on success. -/
structure JoinResult where
  status : Nat
  registry : Registry
  response : Option TokenData
  deriving Repr, DecidableEq

/-- The tail of the join route shared by the lookup and auto-create paths:
generate a token, and promote the token identity to creator of record when
the session still has no participants and no real creator (absent, empty,
or a temporary `creator-` placeholder). -/
def joinIssue (sign : String → String → String) (lkUrl : String)
    (identity : Option String) (now : Int) (randSuffix : String)
    (session : Session) (st1 : Registry) : JoinResult :=
  { status := 200
    registry :=
      if session.participants.length == 0 &&
          (match session.creatorIdentity with
           | none => true
           | some c => c == "" || c.startsWith "creator-") then
        updateSession st1 session.sessionId (fun s => { s with creatorIdentity := some (generateToken sign lkUrl session.roomName identity now randSuffix).identity })
      else st1
    response := some (generateToken sign lkUrl session.roomName identity now randSuffix) }

/-- `POST /api/sessions/:sessionId/join` (primary implementation): look the
session up, auto-create it when absent and validly formatted (400
otherwise), then issue the token. -/
def joinRoute (sign : String → String → String) (lkUrl : String)
    (st : Registry) (sessionId : String) (identity : Option String)
    (now : Int) (randSuffix : String) : JoinResult :=
  match getSession st sessionId with
  | some session => joinIssue sign lkUrl identity now randSuffix session st
  | none =>
    if validSessionIdFormat sessionId then
      let created := createOrGetSession st sessionId identity now
      joinIssue sign lkUrl identity now randSuffix created.1 created.2
    else
      { status := 400, registry := st, response := none }

/-- Outcome of the recording-start route: HTTP status, updated registry,
and whether `recordingService.startRecording` was invoked. -/
structure StartRouteResult where
  status : Nat
  registry : Registry
  startInvoked : Bool
  deriving Repr, DecidableEq

/-- `POST /api/recordings/session/:sessionId/start`: 404 when the session
is absent, 403 when the requester is not the creator, 400 when already
recording, and only then the recording start (500 when it throws). -/
def startRecordingRoute (cfg : R2Config) (env : StartEnv) (st : Registry)
    (sessionId : String) (identity : Option String) (now : Int) :
    StartRouteResult :=
  match getSession st sessionId with
  | none => { status := 404, registry := st, startInvoked := false }
  | some session =>
    if isCreator st sessionId identity then
      if session.isRecording then
        { status := 400, registry := st, startInvoked := false }
      else
        match startRecording cfg env st session.roomName sessionId now with
        | (.ok _, _, st') => { status := 200, registry := st', startInvoked := true }
        | (.error _, _, _) => { status := 500, registry := st, startInvoked := true }
    else
      { status := 403, registry := st, startInvoked := false }

/-- The `room` part of a webhook payload. -/
structure RoomInfo where
  name : String
  deriving Repr, DecidableEq

/-- The `participant` part of a webhook payload. -/
structure ParticipantInfo where
  identity : String
  deriving Repr, DecidableEq

/-- An inbound webhook body: the event kind plus the payload parts, each
possibly absent (accessing a property of an absent part throws a
`TypeError` in JS). -/
structure WebhookEvent where
  event : String
  room : Option RoomInfo
  participant : Option ParticipantInfo
  egress : Option EgressInfo
  deriving Repr, DecidableEq

/-- Externalized outcomes of the external calls the webhook handlers can
trigger. -/
structure WebhookEnv where
  startEnv : StartEnv
  stopEnv : StopEnv

/-- `handleParticipantJoined` (primary implementation): destructures the
payload (throwing on an absent part), returns silently when no session
matches the room, adds the participant, and auto-starts recording for the
first participant with the start error swallowed locally. -/
def handleParticipantJoined (cfg : R2Config) (wenv : WebhookEnv)
    (st : Registry) (store : Store) (now : Int) (event : WebhookEvent) :
    Except String (Registry × Store) :=
  match event.room with
  | none => .error "TypeError: cannot read name of undefined"
  | some room =>
    match getSession st room.name with
    | none => .ok (st, store)
    | some session =>
      match event.participant with
      | none => .error "TypeError: cannot read identity of undefined"
      | some p =>
        let st1 :=
          match addParticipant st room.name p.identity with
          | .ok st' => st'
          | .error _ => st
        let count := getParticipantCount st1 room.name
        if count == 1 && !session.isRecording then
          let started := startRecording cfg wenv.startEnv st1 room.name room.name now
          .ok (started.2.2, store)
        else
          .ok (st1, store)

/-- `handleParticipantLeft` (primary implementation): destructures the
payload, returns silently when no session matches, removes the
participant, and auto-stops recording when the last participant leaves
while a job is in flight (stop errors swallowed). -/
def handleParticipantLeft (cfg : R2Config) (wenv : WebhookEnv)
    (st : Registry) (store : Store) (now : Int) (event : WebhookEvent) :
    Except String (Registry × Store) :=
  match event.room with
  | none => .error "TypeError: cannot read name of undefined"
  | some room =>
    match getSession st room.name with
    | none => .ok (st, store)
    | some session =>
      match event.participant with
      | none => .error "TypeError: cannot read identity of undefined"
      | some p =>
        let st1 := removeParticipant st room.name p.identity
        let count := getParticipantCount st1 room.name
        if count == 0 && session.isRecording && session.recordingEgressId.isSome then
          let r := stopRecording cfg wenv.stopEnv st1 store
            (session.recordingEgressId.getD "") now
          .ok (r.registry, r.store)
        else
          .ok (st1, store)

/-- `handleEgressStarted`: log-only, but still throws when the payload is
absent. -/
def handleEgressStarted (st : Registry) (store : Store) (event : WebhookEvent) :
    Except String (Registry × Store) :=
  match event.egress with
  | none => .error "TypeError: cannot read egressId of undefined"
  | some _ => .ok (st, store)

/-- `handleEgressEnded`: forwards the egress descriptor into
`handleRecordingComplete` (which never throws past its own boundary). -/
def handleEgressEnded (cfg : R2Config) (st : Registry) (store : Store)
    (now : Int) (event : WebhookEvent) : Except String (Registry × Store) :=
  match event.egress with
  | none => .error "TypeError: cannot read egressId of undefined"
  | some eg =>
    let r := handleRecordingComplete cfg st store eg.egressId eg now
    .ok (r.registry, r.store)

/-- The event kinds the webhook switch recognizes (primary
implementation). -/
def recognizedKinds : List String :=
  ["participant_joined", "participant_left", "egress_ended", "egress_started"]

/-- The webhook switch: `none` for an unhandled kind, otherwise the
handler's outcome. -/
def webhookDispatch (cfg : R2Config) (wenv : WebhookEnv) (st : Registry)
    (store : Store) (now : Int) (event : WebhookEvent) :
    Option (Except String (Registry × Store)) :=
  if event.event == "participant_joined" then
    some (handleParticipantJoined cfg wenv st store now event)
  else if event.event == "participant_left" then
    some (handleParticipantLeft cfg wenv st store now event)
  else if event.event == "egress_ended" then
    some (handleEgressEnded cfg st store now event)
  else if event.event == "egress_started" then
    some (handleEgressStarted st store event)
  else
    none

/-- `POST /api/webhooks/livekit` (primary implementation): 401 on a bad
bearer secret, 200 for unhandled kinds (logged only) and for handlers that
return, 500 from the outer catch when a handler throws (the handlers throw
only before mutating any state). -/
def webhookRoute (secret : String) (auth : Option String) (cfg : R2Config)
    (wenv : WebhookEnv) (st : Registry) (store : Store) (now : Int)
    (event : WebhookEvent) : Nat × Registry × Store :=
  if auth == some ("Bearer " ++ secret) then
    match webhookDispatch cfg wenv st store now event with
    | none => (200, st, store)
    | some (.ok (st', store')) => (200, st', store')
    | some (.error _) => (500, st, store)
  else
    (401, st, store)

/-! ### Registry lemmas -/

theorem getSession_updateSession (st : Registry) (sessionId id' : String)
    (f : Session → Session) (hf : ∀ s, (f s).sessionId = s.sessionId) :
    getSession (updateSession st sessionId f) id' =
      (getSession st id').map (fun s => if s.sessionId == sessionId then f s else s) := by
  unfold getSession updateSession
  rw [List.find?_map]
  have hp : ((fun s : Session => s.sessionId == id') ∘
      (fun s => if s.sessionId == sessionId then f s else s)) =
      (fun s : Session => s.sessionId == id') := by
    funext s
    by_cases h : (s.sessionId == sessionId) = true
    · simp [Function.comp, h, hf]
    · simp [Function.comp, h]
  rw [hp]

theorem getSession_updateSession_self (st : Registry) (sessionId : String)
    (f : Session → Session) (hf : ∀ s, (f s).sessionId = s.sessionId) :
    getSession (updateSession st sessionId f) sessionId =
      (getSession st sessionId).map f := by
  rw [getSession_updateSession st sessionId sessionId f hf]
  cases h : getSession st sessionId with
  | none => rfl
  | some s =>
    have hps := List.find?_some (show st.find? (fun s => s.sessionId == sessionId) = some s from h)
    show some (if s.sessionId == sessionId then f s else s) = some (f s)
    rw [if_pos hps]

theorem getSession_updateSession_ne (st : Registry) (sessionId id' : String)
    (f : Session → Session) (hf : ∀ s, (f s).sessionId = s.sessionId)
    (hne : id' ≠ sessionId) :
    getSession (updateSession st sessionId f) id' = getSession st id' := by
  rw [getSession_updateSession st sessionId id' f hf]
  cases h : getSession st id' with
  | none => rfl
  | some s =>
    have hps := List.find?_some (show st.find? (fun s => s.sessionId == id') = some s from h)
    have hsid : s.sessionId = id' := by simpa using hps
    have hcond : ¬ ((s.sessionId == sessionId) = true) := by
      simp [hsid]
      exact hne
    show some (if s.sessionId == sessionId then f s else s) = some s
    rw [if_neg hcond]

theorem length_updateSession (st : Registry) (sessionId : String)
    (f : Session → Session) : (updateSession st sessionId f).length = st.length :=
  List.length_map st _

theorem mapSet_of_absent (st : Registry) (s : Session)
    (h : getSession st s.sessionId = none) : mapSet st s = st ++ [s] := by
  unfold mapSet
  simp [h]

theorem getSession_append (st₁ st₂ : Registry) (sessionId : String) :
    getSession (st₁ ++ st₂) sessionId =
      jsOr (getSession st₁ sessionId) (getSession st₂ sessionId) := by
  induction st₁ with
  | nil => rfl
  | cons s rest ih =>
    unfold getSession at *
    rw [List.cons_append]
    cases h : s.sessionId == sessionId with
    | true =>
      show (match s.sessionId == sessionId with
            | true => some s
            | false => List.find? (fun s => s.sessionId == sessionId) (rest ++ st₂)) =
        jsOr (match s.sessionId == sessionId with
              | true => some s
              | false => List.find? (fun s => s.sessionId == sessionId) rest) _
      rw [h]
      rfl
    | false =>
      show (match s.sessionId == sessionId with
            | true => some s
            | false => List.find? (fun s => s.sessionId == sessionId) (rest ++ st₂)) =
        jsOr (match s.sessionId == sessionId with
              | true => some s
              | false => List.find? (fun s => s.sessionId == sessionId) rest) _
      rw [h]
      exact ih

/-! ### The recording-flag invariant machinery -/

/-- The per-session invariant of claim C4: the flag and the presence of the
job id agree. -/
def flagOk (s : Session) : Prop := s.isRecording = s.recordingEgressId.isSome

theorem flagOk_fresh (sessionId : String) (now : Int) :
    flagOk (freshSession sessionId now) := rfl

theorem flagOk_updateSession (st : Registry) (sessionId : String)
    (f : Session → Session) (hmono : ∀ s, flagOk s → flagOk (f s))
    (hst : ∀ s ∈ st, flagOk s) :
    ∀ s' ∈ updateSession st sessionId f, flagOk s' := by
  intro s' hs'
  obtain ⟨s, hs, rfl⟩ := List.mem_map.1 hs'
  by_cases h : (s.sessionId == sessionId) = true
  · rw [if_pos h]
    exact hmono s (hst s hs)
  · rw [if_neg h]
    exact hst s hs

theorem flagOk_mapSet (st : Registry) (sess : Session) (hsess : flagOk sess)
    (hst : ∀ s ∈ st, flagOk s) : ∀ s' ∈ mapSet st sess, flagOk s' := by
  unfold mapSet
  by_cases h : (getSession st sess.sessionId).isSome
  · rw [if_pos h]
    exact flagOk_updateSession st sess.sessionId (fun _ => sess)
      (fun _ _ => hsess) hst
  · rw [if_neg h]
    intro s' hs'
    rcases List.mem_append.1 hs' with hmem | hmem
    · exact hst s' hmem
    · rcases List.mem_singleton.1 hmem with rfl
      exact hsess

theorem flagOk_applyOp (st : Registry) (op : RegOp)
    (hst : ∀ s ∈ st, flagOk s) : ∀ s' ∈ applyOp st op, flagOk s' := by
  cases op with
  | create gid now =>
    exact flagOk_mapSet st (freshSession gid now) (flagOk_fresh gid now) hst
  | addP sid p =>
    rw [show applyOp st (RegOp.addP sid p) =
      (match addParticipant st sid p with
       | Except.ok st' => st'
       | Except.error _ => st) from rfl]
    cases hres : addParticipant st sid p with
    | error m => exact hst
    | ok st' =>
      unfold addParticipant at hres
      cases hgs : getSession st sid with
      | none => rw [hgs] at hres; cases hres
      | some s0 =>
        rw [hgs] at hres
        injection hres with hres'
        subst hres'
        refine flagOk_updateSession st sid _ (fun s hs => ?_) hst
        by_cases hc : p ∈ s.participants
        · simpa [hc] using hs
        · simpa [flagOk, hc] using hs
  | removeP sid p =>
    exact flagOk_updateSession st sid _ (fun s hs => hs) hst
  | setRec sid eid now =>
    rw [show applyOp st (RegOp.setRec sid eid now) =
      (match setRecording st sid eid now with
       | Except.ok st' => st'
       | Except.error _ => st) from rfl]
    cases hres : setRecording st sid eid now with
    | error m => exact hst
    | ok st' =>
      unfold setRecording at hres
      cases hgs : getSession st sid with
      | none => rw [hgs] at hres; cases hres
      | some s0 =>
        rw [hgs] at hres
        injection hres with hres'
        subst hres'
        exact flagOk_updateSession st sid _ (fun s _ => rfl) hst
  | clearRec sid =>
    exact flagOk_updateSession st sid _ (fun s _ => rfl) hst

theorem flagOk_foldl (ops : List RegOp) :
    ∀ st : Registry, (∀ s ∈ st, flagOk s) →
      ∀ s' ∈ ops.foldl applyOp st, flagOk s' := by
  induction ops with
  | nil => intro st h; simpa using h
  | cons op rest ih =>
    intro st h
    exact ih (applyOp st op) (flagOk_applyOp st op h)

/-! ### Substring lemmas -/

theorem hasSubAux_append_right (pat a b : List Char)
    (h : hasSubAux pat b = true) : hasSubAux pat (a ++ b) = true := by
  induction a with
  | nil => simpa using h
  | cons c cs ih =>
    rw [List.cons_append]
    show (leadsWith pat (c :: (cs ++ b)) || hasSubAux pat (cs ++ b)) = true
    rw [Bool.or_eq_true]
    exact Or.inr ih

theorem containsSub_append_right (a b pat : String)
    (h : containsSub b pat = true) : containsSub (a ++ b) pat = true := by
  unfold containsSub at *
  have : (a ++ b).data = a.data ++ b.data := rfl
  rw [this]
  exact hasSubAux_append_right pat.data a.data b.data h

theorem containsSub_wrapStartError (msg pat : String)
    (h : containsSub msg pat = true) :
    containsSub (wrapStartError msg) pat = true := by
  unfold wrapStartError
  split
  · exact containsSub_append_right _ _ _ h
  · split
    · exact containsSub_append_right _ _ _ h
    · exact containsSub_append_right _ _ _ h

theorem containsSub_noParticipantsMsg (roomName : String) :
    containsSub (noParticipantsMsg roomName) "no participants" = true := by
  unfold noParticipantsMsg
  rw [String.append_assoc]
  exact containsSub_append_right _ _ _
    (containsSub_append_right roomName _ _ (by decide))

theorem updateSession_updateSession (st : Registry) (sessionId : String)
    (f g : Session → Session) (hf : ∀ s, (f s).sessionId = s.sessionId) :
    updateSession (updateSession st sessionId f) sessionId g =
      updateSession st sessionId (fun s => g (f s)) := by
  unfold updateSession
  rw [List.map_map]
  congr 1
  funext s
  by_cases h : (s.sessionId == sessionId) = true
  · simp [Function.comp, h, hf]
  · simp [Function.comp, h]

theorem updateSession_congr (st : Registry) (sessionId : String)
    (f g : Session → Session) (h : ∀ s, f s = g s) :
    updateSession st sessionId f = updateSession st sessionId g := by
  unfold updateSession
  congr 1
  funext s
  by_cases hc : (s.sessionId == sessionId) = true
  · rw [if_pos hc, if_pos hc, h]
  · rw [if_neg hc, if_neg hc]

theorem jsOr_none_right {α : Type} (a : Option α) : jsOr a none = a := by
  cases a <;> rfl

/-! ### Claim theorems -/

/-- C9: for every existing session and identity, calling `addParticipant`
twice in succession with the same identity leaves the session's
participants list identical to calling it once — the second call changes
neither the contents nor the size of the list (set semantics). -/
theorem addParticipant_idempotent (st : Registry) (sessionId p : String)
    (st' : Registry) (h : addParticipant st sessionId p = Except.ok st') :
    addParticipant st' sessionId p = Except.ok st' := by
  have hgpre : ∀ s : Session,
      ((fun s : Session => if s.participants.contains p then s
        else { s with participants := s.participants ++ [p] }) s).sessionId = s.sessionId := by
    intro s
    by_cases hc : p ∈ s.participants <;> simp [hc]
  have hgidem : ∀ s : Session,
      (fun s : Session => if s.participants.contains p then s
        else { s with participants := s.participants ++ [p] })
      ((fun s : Session => if s.participants.contains p then s
        else { s with participants := s.participants ++ [p] }) s) =
      (fun s : Session => if s.participants.contains p then s
        else { s with participants := s.participants ++ [p] }) s := by
    intro s
    by_cases hc : p ∈ s.participants <;> simp [hc]
  unfold addParticipant at h ⊢
  cases hgs : getSession st sessionId with
  | none => rw [hgs] at h; cases h
  | some s0 =>
    rw [hgs] at h
    injection h with h'
    subst h'
    rw [getSession_updateSession_self st sessionId _ hgpre, hgs]
    show Except.ok _ = Except.ok _
    rw [updateSession_updateSession st sessionId _ _ hgpre]
    rw [updateSession_congr st sessionId _ _ hgidem]

/-- Witness for C9 at a concrete registry. -/
theorem addParticipant_idempotent_witness :
    addParticipant
      [({ sessionId := "S1", roomName := "S1", creatorIdentity := none,
          createdAt := 0, participants := ["alice"], isRecording := false,
          recordingEgressId := none, recordingStartedAt := none } : Session)]
      "S1" "alice" =
    Except.ok
      [({ sessionId := "S1", roomName := "S1", creatorIdentity := none,
          createdAt := 0, participants := ["alice"], isRecording := false,
          recordingEgressId := none, recordingStartedAt := none } : Session)] :=
  addParticipant_idempotent [freshSession "S1" 0] "S1" "alice" _ rfl

/-- C4: in every registry state reachable by createSession, addParticipant,
removeParticipant, setRecording and clearRecording, every stored session
has `isRecording` true exactly when `recordingEgressId` is present; and
`setRecording id job` establishes the flag with that job id while
`clearRecording id` establishes flag false with the id absent. -/
theorem recording_flag_invariant :
    (∀ (ops : List RegOp), ∀ s ∈ applyOps ops,
        (s.isRecording = true ↔ s.recordingEgressId.isSome = true)) ∧
    (∀ (st : Registry) (sid eid : String) (now : Int) (st' : Registry),
        setRecording st sid eid now = Except.ok st' →
        (getSession st' sid).map (fun s => (s.isRecording, s.recordingEgressId)) =
          some (true, some eid)) ∧
    (∀ (st : Registry) (sid : String) (s0 : Session),
        getSession st sid = some s0 →
        (getSession (clearRecording st sid) sid).map
            (fun s => (s.isRecording, s.recordingEgressId)) =
          some (false, none)) := by
  refine ⟨?_, ?_, ?_⟩
  · intro ops s hs
    have := flagOk_foldl ops [] (by intro s hmem; cases hmem) s hs
    rw [this]
  · intro st sid eid now st' h
    unfold setRecording at h
    cases hgs : getSession st sid with
    | none => rw [hgs] at h; cases h
    | some s0 =>
      rw [hgs] at h
      injection h with h'
      subst h'
      rw [getSession_updateSession_self st sid (fun s => { s with isRecording := true, recordingEgressId := some eid, recordingStartedAt := some now }) (fun s => rfl), hgs]
      rfl
  · intro st sid s0 h
    unfold clearRecording
    rw [getSession_updateSession_self st sid (fun s => { s with isRecording := false, recordingEgressId := none }) (fun s => rfl), h]
    rfl

/-- A sample session with a recording in flight, for concrete witnesses. -/
def sessABRec : Session := ⟨"AB", "AB", none, 0, [], true, some "j", some 1⟩

/-- Witness for C4 at concrete inputs. -/
theorem recording_flag_invariant_witness :
    (sessABRec.isRecording = true ↔ sessABRec.recordingEgressId.isSome = true) ∧
    ((getSession [sessABRec] "AB").map
        (fun s => (s.isRecording, s.recordingEgressId)) = some (true, some "j")) ∧
    ((getSession (clearRecording [sessABRec] "AB") "AB").map
        (fun s => (s.isRecording, s.recordingEgressId)) = some (false, none)) :=
  ⟨recording_flag_invariant.1 [RegOp.create "AB" 0, RegOp.setRec "AB" "j" 1] sessABRec (by decide),
   recording_flag_invariant.2.1 [freshSession "AB" 0] "AB" "j" 1 [sessABRec] rfl,
   recording_flag_invariant.2.2 [sessABRec] "AB" sessABRec rfl⟩

/-- C10: when no stored session has `recordingEgressId` equal to the
delivered egress id (the state after the manual stop route has already
called `clearRecording`), `handleRecordingComplete` returns without saving
any record and without modifying any session. -/
theorem completion_unknown_egress_frame (cfg : R2Config) (st : Registry)
    (store : Store) (egressId : String) (info : EgressInfo) (now : Int)
    (h : ∀ s ∈ st, s.recordingEgressId ≠ some egressId) :
    handleRecordingComplete cfg st store egressId info now =
      { registry := st, store := store, saved := none } := by
  have hfind : (getAllSessions st).find?
      (fun s => s.recordingEgressId == some egressId) = none := by
    rw [List.find?_eq_none]
    intro s hs
    simp only [getAllSessions] at hs
    simpa using h s hs
  unfold handleRecordingComplete
  simp only [hfind]

/-- Witness for C10 at a concrete registry holding a cleared session. -/
theorem completion_unknown_egress_frame_witness :
    handleRecordingComplete
      ⟨some "ak", some "sk", some "bkt", some "https://acc.example.com", some "auto"⟩
      [({ sessionId := "S1", roomName := "S1", creatorIdentity := some "alice",
          createdAt := 0, participants := ["alice"], isRecording := false,
          recordingEgressId := none, recordingStartedAt := some 0 } : Session)]
      [] "job-1"
      ({ egressId := "job-1", status := some (.str "EGRESS_COMPLETE"),
         egressStatus := none, error := none, errorReason := none, file := none } : EgressInfo)
      9000 =
      { registry :=
          [({ sessionId := "S1", roomName := "S1", creatorIdentity := some "alice",
              createdAt := 0, participants := ["alice"], isRecording := false,
              recordingEgressId := none, recordingStartedAt := some 0 } : Session)],
        store := [], saved := none } :=
  completion_unknown_egress_frame _ _ _ _ _ _ (by decide)

/-- A sample R2 configuration with every required setting present. -/
def sampleCfg : R2Config :=
  ⟨some "ak", some "sk", some "bkt", some "https://acc.example.com", some "auto"⟩

/-- A sample session with egress job `job-1` in flight. -/
def sessS1Rec : Session :=
  ⟨"S1", "S1", some "alice", 0, ["alice"], true, some "job-1", some 0⟩

/-- A completed-egress descriptor for `job-1`. -/
def completeInfo : EgressInfo :=
  ⟨"job-1", some (.str "EGRESS_COMPLETE"), none, none, none, none⟩

/-- A failed-egress descriptor for `job-1`. -/
def failedInfo : EgressInfo :=
  ⟨"job-1", some (.str "EGRESS_FAILED"), none, some "pipeline crashed", none, none⟩

/-- A differently-failed descriptor for `job-1` (aborted, other error text). -/
def abortedInfo : EgressInfo :=
  ⟨"job-1", some (.str "EGRESS_ABORTED"), none, some "different failure", none, none⟩

/-- C7: the duration written into the Recording Record equals
floor((endedAt − startedAt) / 1000) seconds, where startedAt is the
session's `recordingStartedAt` and endedAt the completion-handling time;
at endedAt = startedAt + 125s the recorded duration is 125. -/
theorem completion_duration_floor (cfg : R2Config) (st : Registry) (store : Store)
    (egressId : String) (info : EgressInfo) (now T : Int) (session : Session)
    (hfind : (getAllSessions st).find?
      (fun s => s.recordingEgressId == some egressId) = some session)
    (hT : session.recordingStartedAt = some T) :
    ((handleRecordingComplete cfg st store egressId info now).saved.map
        Recording.duration = some (Int.fdiv (now - T) 1000)) ∧
    (now = T + 125000 →
      (handleRecordingComplete cfg st store egressId info now).saved.map
        Recording.duration = some 125) := by
  have hmain : (handleRecordingComplete cfg st store egressId info now).saved.map
      Recording.duration = some (Int.fdiv (now - T) 1000) := by
    unfold handleRecordingComplete
    simp only [hfind, hT, Option.getD_some]
    rfl
  refine ⟨hmain, fun hnow => ?_⟩
  rw [hmain, hnow]
  have h125 : T + 125000 - T = (125000 : Int) := by ring
  rw [h125]
  decide

/-- Witness for C7 at the 125-second scenario. -/
theorem completion_duration_floor_witness :
    ((handleRecordingComplete sampleCfg [sessS1Rec] [] "job-1" completeInfo 125000).saved.map
        Recording.duration = some (Int.fdiv (125000 - 0) 1000)) ∧
    ((125000 : Int) = 0 + 125000 →
      (handleRecordingComplete sampleCfg [sessS1Rec] [] "job-1" completeInfo 125000).saved.map
        Recording.duration = some 125) :=
  completion_duration_floor sampleCfg [sessS1Rec] [] "job-1" completeInfo 125000 0
    sessS1Rec rfl rfl

/-- C2, evaluated at its scenario (session recording under job `job-1`,
`egress_ended` delivering a failed terminal status): exactly one record is
appended and the session's `isRecording` flag ends false, but the record
the store holds carries no status field at all — `saveRecording` does not
copy `status` (nor `error`), so the saved record is identical to the one
produced for a differently-failed (or any) terminal status. -/
theorem failed_completion_record_eval :
    (handleRecordingComplete sampleCfg [sessS1Rec] [] "job-1" failedInfo 5000).store =
      [⟨"S1-5000", "S1", 0, 5000, 5, none, "job-1", 5000⟩] ∧
    (getSession (handleRecordingComplete sampleCfg [sessS1Rec] [] "job-1"
        failedInfo 5000).registry "S1").map Session.isRecording = some false ∧
    (handleRecordingComplete sampleCfg [sessS1Rec] [] "job-1" failedInfo 5000).saved =
      (handleRecordingComplete sampleCfg [sessS1Rec] [] "job-1" abortedInfo 5000).saved :=
  ⟨rfl, rfl, rfl⟩

/-- C5: with storage configured, `startRecording` against a room whose
participant listing comes back empty fails with the no-participants
precondition error and never invokes the egress start API, leaving the
registry untouched. -/
theorem start_requires_participants (cfg : R2Config) (env : StartEnv)
    (st : Registry) (roomName sessionId : String) (now : Int)
    (hcfg : r2ok cfg = true) (hps : env.listParticipants = Except.ok []) :
    startRecording cfg env st roomName sessionId now =
      (Except.error (wrapStartError (noParticipantsMsg roomName)), false, st) ∧
    containsSub (wrapStartError (noParticipantsMsg roomName)) "no participants" = true := by
  constructor
  · unfold startRecording startRecordingInner
    simp only [hcfg, hps, if_true]
    rfl
  · exact containsSub_wrapStartError _ _ (containsSub_noParticipantsMsg roomName)

/-- Witness for C5 at a concrete empty room. -/
theorem start_requires_participants_witness :
    startRecording sampleCfg ⟨Except.ok [], Except.ok "EG_1"⟩ [] "room1" "S1" 0 =
      (Except.error (wrapStartError (noParticipantsMsg "room1")), false, []) ∧
    containsSub (wrapStartError (noParticipantsMsg "room1")) "no participants" = true :=
  start_requires_participants sampleCfg ⟨Except.ok [], Except.ok "EG_1"⟩ [] "room1" "S1" 0
    rfl rfl

/-- C6: for a stop whose job lookup succeeds, a Complete/Ending status is a
strict no-op (no stop request, no completion handling), a Failed/Aborted
status routes the fetched descriptor into the completion handler instead
of a stop, and an Active/Starting status issues exactly one stop request
and performs no synchronous completion handling when the stop call
succeeds. -/
theorem stop_dispatch_by_status (cfg : R2Config) (env : StopEnv) (st : Registry)
    (store : Store) (egressId : String) (now : Int) (egress : EgressInfo)
    (h : env.egressLookup = some egress) :
    ((egress.status.map normalizeStatus = some "EGRESS_COMPLETE" ∨
      egress.status.map normalizeStatus = some "EGRESS_ENDING") →
      stopRecording cfg env st store egressId now =
        { registry := st, store := store, stopCalls := 0, completions := [] }) ∧
    ((egress.status.map normalizeStatus = some "EGRESS_FAILED" ∨
      egress.status.map normalizeStatus = some "EGRESS_ABORTED") →
      stopRecording cfg env st store egressId now =
        { registry := (handleRecordingComplete cfg st store egressId egress now).registry,
          store := (handleRecordingComplete cfg st store egressId egress now).store,
          stopCalls := 0, completions := [egress] }) ∧
    ((egress.status.map normalizeStatus = some "EGRESS_ACTIVE" ∨
      egress.status.map normalizeStatus = some "EGRESS_STARTING") →
      env.stopResult = Except.ok () →
      stopRecording cfg env st store egressId now =
        { registry := st, store := store, stopCalls := 1, completions := [] }) := by
  refine ⟨?_, ?_, ?_⟩
  · intro hs
    rcases hs with hs | hs <;> simp [stopRecording, h, hs]
  · intro hs
    rcases hs with hs | hs <;> simp [stopRecording, h, hs]
  · intro hs hstop
    rcases hs with hs | hs <;> simp [stopRecording, h, hs, hstop]

/-- Witness for C6 exercising all three status families. -/
theorem stop_dispatch_by_status_witness :
    (stopRecording sampleCfg ⟨some completeInfo, Except.ok (), none⟩ [sessS1Rec] []
        "job-1" 9000 =
      { registry := [sessS1Rec], store := [], stopCalls := 0, completions := [] }) ∧
    (stopRecording sampleCfg ⟨some failedInfo, Except.ok (), none⟩ [sessS1Rec] []
        "job-1" 9000 =
      { registry := (handleRecordingComplete sampleCfg [sessS1Rec] [] "job-1"
            failedInfo 9000).registry,
        store := (handleRecordingComplete sampleCfg [sessS1Rec] [] "job-1"
            failedInfo 9000).store,
        stopCalls := 0, completions := [failedInfo] }) ∧
    (stopRecording sampleCfg
        ⟨some (⟨"job-1", some (.str "EGRESS_ACTIVE"), none, none, none, none⟩ : EgressInfo),
          Except.ok (), none⟩ [sessS1Rec] [] "job-1" 9000 =
      { registry := [sessS1Rec], store := [], stopCalls := 1, completions := [] }) :=
  ⟨(stop_dispatch_by_status sampleCfg ⟨some completeInfo, Except.ok (), none⟩ [sessS1Rec]
      [] "job-1" 9000 completeInfo rfl).1 (Or.inl rfl),
   (stop_dispatch_by_status sampleCfg ⟨some failedInfo, Except.ok (), none⟩ [sessS1Rec]
      [] "job-1" 9000 failedInfo rfl).2.1 (Or.inl rfl),
   (stop_dispatch_by_status sampleCfg
      ⟨some (⟨"job-1", some (.str "EGRESS_ACTIVE"), none, none, none, none⟩ : EgressInfo),
        Except.ok (), none⟩ [sessS1Rec] [] "job-1" 9000
      (⟨"job-1", some (.str "EGRESS_ACTIVE"), none, none, none, none⟩ : EgressInfo)
      rfl).2.2 (Or.inl rfl) rfl⟩

/-- C1: the recording-start route answers 404 when the session is absent,
403 when the session exists but the requester is not its creator of
record, 400 when the session exists, the requester is the creator, and a
recording is already in progress; the recording start is invoked exactly
when all three checks pass. -/
theorem creator_gate_start_route (cfg : R2Config) (env : StartEnv) (st : Registry)
    (sessionId : String) (identity : Option String) (now : Int) :
    (getSession st sessionId = none →
      startRecordingRoute cfg env st sessionId identity now =
        { status := 404, registry := st, startInvoked := false }) ∧
    (∀ s, getSession st sessionId = some s →
      isCreator st sessionId identity = false →
      startRecordingRoute cfg env st sessionId identity now =
        { status := 403, registry := st, startInvoked := false }) ∧
    (∀ s, getSession st sessionId = some s →
      isCreator st sessionId identity = true → s.isRecording = true →
      startRecordingRoute cfg env st sessionId identity now =
        { status := 400, registry := st, startInvoked := false }) ∧
    (∀ s, getSession st sessionId = some s →
      isCreator st sessionId identity = true → s.isRecording = false →
      (startRecordingRoute cfg env st sessionId identity now).startInvoked = true) := by
  refine ⟨?_, ?_, ?_, ?_⟩
  · intro h
    unfold startRecordingRoute
    rw [h]
  · intro s hs hcr
    unfold startRecordingRoute
    rw [hs]
    simp [hcr]
  · intro s hs hcr hrec
    unfold startRecordingRoute
    rw [hs]
    simp [hcr, hrec]
  · intro s hs hcr hrec
    unfold startRecordingRoute
    rw [hs]
    simp only [hcr, hrec, if_true, Bool.false_eq_true, if_false]
    rcases hres : startRecording cfg env st s.roomName sessionId now with ⟨r, b, st2⟩
    cases r <;> rfl

/-- Witness for C1 exercising all four route outcomes. -/
theorem creator_gate_start_route_witness :
    (startRecordingRoute sampleCfg ⟨Except.ok [], Except.ok "EG_1"⟩ [] "S9"
        (some "alice") 0 =
      { status := 404, registry := [], startInvoked := false }) ∧
    (startRecordingRoute sampleCfg ⟨Except.ok [], Except.ok "EG_1"⟩ [sessS1Rec] "S1"
        (some "bob") 0 =
      { status := 403, registry := [sessS1Rec], startInvoked := false }) ∧
    (startRecordingRoute sampleCfg ⟨Except.ok [], Except.ok "EG_1"⟩ [sessS1Rec] "S1"
        (some "alice") 0 =
      { status := 400, registry := [sessS1Rec], startInvoked := false }) ∧
    ((startRecordingRoute sampleCfg ⟨Except.ok [], Except.ok "EG_1"⟩
        [⟨"S1", "S1", some "alice", 0, ["alice"], false, none, none⟩] "S1"
        (some "alice") 0).startInvoked = true) :=
  ⟨(creator_gate_start_route sampleCfg ⟨Except.ok [], Except.ok "EG_1"⟩ [] "S9"
      (some "alice") 0).1 rfl,
   (creator_gate_start_route sampleCfg ⟨Except.ok [], Except.ok "EG_1"⟩ [sessS1Rec] "S1"
      (some "bob") 0).2.1 sessS1Rec rfl rfl,
   (creator_gate_start_route sampleCfg ⟨Except.ok [], Except.ok "EG_1"⟩ [sessS1Rec] "S1"
      (some "alice") 0).2.2.1 sessS1Rec rfl rfl rfl,
   (creator_gate_start_route sampleCfg ⟨Except.ok [], Except.ok "EG_1"⟩
      [⟨"S1", "S1", some "alice", 0, ["alice"], false, none, none⟩] "S1"
      (some "alice") 0).2.2.2 ⟨"S1", "S1", some "alice", 0, ["alice"], false, none, none⟩
      rfl rfl rfl⟩

theorem joinIssue_status (sign : String → String → String) (lkUrl : String)
    (identity : Option String) (now : Int) (randSuffix : String)
    (session : Session) (st1 : Registry) :
    (joinIssue sign lkUrl identity now randSuffix session st1).status = 200 := rfl

theorem joinIssue_response (sign : String → String → String) (lkUrl : String)
    (identity : Option String) (now : Int) (randSuffix : String)
    (session : Session) (st1 : Registry) :
    (joinIssue sign lkUrl identity now randSuffix session st1).response =
      some (generateToken sign lkUrl session.roomName identity now randSuffix) := rfl

theorem joinIssue_registry_length (sign : String → String → String) (lkUrl : String)
    (identity : Option String) (now : Int) (randSuffix : String)
    (session : Session) (st1 : Registry) :
    (joinIssue sign lkUrl identity now randSuffix session st1).registry.length =
      st1.length := by
  show (if _ then updateSession st1 session.sessionId _ else st1).length = st1.length
  split
  · exact length_updateSession st1 _ _
  · rfl

theorem joinIssue_getSession_map (sign : String → String → String) (lkUrl : String)
    (identity : Option String) (now : Int) (randSuffix : String)
    (session : Session) (st1 : Registry) (sid : String)
    (hkey : session.sessionId = sid) :
    (getSession (joinIssue sign lkUrl identity now randSuffix session st1).registry
        sid).map Session.sessionId = (getSession st1 sid).map Session.sessionId := by
  subst hkey
  show (getSession (if _ then updateSession st1 session.sessionId _ else st1)
    session.sessionId).map Session.sessionId = _
  split
  · rw [getSession_updateSession_self st1 session.sessionId (fun s => { s with creatorIdentity := some (generateToken sign lkUrl session.roomName identity now randSuffix).identity }) (fun s => rfl)]
    cases getSession st1 session.sessionId <;> rfl
  · rfl

theorem joinIssue_getSession_ne (sign : String → String → String) (lkUrl : String)
    (identity : Option String) (now : Int) (randSuffix : String)
    (session : Session) (st1 : Registry) (id' : String)
    (hne : id' ≠ session.sessionId) :
    getSession (joinIssue sign lkUrl identity now randSuffix session st1).registry id' =
      getSession st1 id' := by
  show getSession (if _ then updateSession st1 session.sessionId _ else st1) id' = _
  split
  · exact getSession_updateSession_ne st1 session.sessionId id' _ (fun s => rfl) hne
  · rfl

/-- C3: for identifiers in an accepted format, the join route returns a
token for the already-existing session under that identifier, or creates
exactly one new session stored under exactly that identifier, leaving all
other identifiers untouched; an identifier in no accepted format that is
not already stored gets a 400 and the registry is unchanged. -/
theorem join_idempotent_create (sign : String → String → String) (lkUrl : String)
    (st : Registry) (sessionId : String) (identity : Option String)
    (now : Int) (randSuffix : String) :
    (validSessionIdFormat sessionId = true →
      (∀ s, getSession st sessionId = some s →
        (joinRoute sign lkUrl st sessionId identity now randSuffix).status = 200 ∧
        (joinRoute sign lkUrl st sessionId identity now randSuffix).response =
          some (generateToken sign lkUrl s.roomName identity now randSuffix) ∧
        (joinRoute sign lkUrl st sessionId identity now randSuffix).registry.length =
          st.length) ∧
      (getSession st sessionId = none →
        (joinRoute sign lkUrl st sessionId identity now randSuffix).status = 200 ∧
        (joinRoute sign lkUrl st sessionId identity now randSuffix).registry.length =
          st.length + 1 ∧
        (getSession (joinRoute sign lkUrl st sessionId identity now randSuffix).registry
            sessionId).map Session.sessionId = some sessionId ∧
        (∀ id', id' ≠ sessionId →
          getSession (joinRoute sign lkUrl st sessionId identity now randSuffix).registry
            id' = getSession st id'))) ∧
    (validSessionIdFormat sessionId = false → getSession st sessionId = none →
      joinRoute sign lkUrl st sessionId identity now randSuffix =
        { status := 400, registry := st, response := none }) := by
  constructor
  · intro _hv
    constructor
    · intro s hs
      have hroute : joinRoute sign lkUrl st sessionId identity now randSuffix =
          joinIssue sign lkUrl identity now randSuffix s st := by
        unfold joinRoute
        rw [hs]
      rw [hroute]
      exact ⟨joinIssue_status sign lkUrl identity now randSuffix s st,
        joinIssue_response sign lkUrl identity now randSuffix s st,
        joinIssue_registry_length sign lkUrl identity now randSuffix s st⟩
    · intro hn
      have hv := _hv
      have hcreated : createOrGetSession st sessionId identity now =
          (newJoinSession sessionId identity now,
            st ++ [newJoinSession sessionId identity now]) := by
        unfold createOrGetSession
        rw [hn]
        show (newJoinSession sessionId identity now,
          mapSet st (newJoinSession sessionId identity now)) = _
        rw [mapSet_of_absent st (newJoinSession sessionId identity now) hn]
      have hroute : joinRoute sign lkUrl st sessionId identity now randSuffix =
          joinIssue sign lkUrl identity now randSuffix
            (newJoinSession sessionId identity now)
            (st ++ [newJoinSession sessionId identity now]) := by
        unfold joinRoute
        rw [hn, if_pos hv]
        show joinIssue sign lkUrl identity now randSuffix
          (createOrGetSession st sessionId identity now).1
          (createOrGetSession st sessionId identity now).2 = _
        rw [hcreated]
      have hsingle : getSession [newJoinSession sessionId identity now] sessionId =
          some (newJoinSession sessionId identity now) := by
        have hbeq : (sessionId == sessionId) = true := beq_self_eq_true sessionId
        show (match (sessionId == sessionId : Bool) with
              | true => some (newJoinSession sessionId identity now)
              | false => List.find? _ ([] : Registry)) = _
        rw [hbeq]
      rw [hroute]
      refine ⟨joinIssue_status sign lkUrl identity now randSuffix _ _, ?_, ?_, ?_⟩
      · rw [joinIssue_registry_length sign lkUrl identity now randSuffix _ _]
        simp
      · rw [joinIssue_getSession_map sign lkUrl identity now randSuffix _ _ sessionId rfl]
        rw [getSession_append st [newJoinSession sessionId identity now] sessionId, hn]
        show (getSession [newJoinSession sessionId identity now] sessionId).map _ = _
        rw [hsingle]
        rfl
      · intro id' hne
        rw [joinIssue_getSession_ne sign lkUrl identity now randSuffix _ _ id' hne]
        rw [getSession_append st [newJoinSession sessionId identity now] id']
        have hnone : getSession [newJoinSession sessionId identity now] id' = none := by
          have hbeq : (sessionId == id') = false := by
            rw [beq_eq_false_iff_ne]
            exact fun h => hne h.symm
          show (match (sessionId == id' : Bool) with
                | true => some (newJoinSession sessionId identity now)
                | false => List.find? _ ([] : Registry)) = _
          rw [hbeq]
          rfl
        rw [hnone, jsOr_none_right]
  · intro hv hn
    unfold joinRoute
    rw [hn]
    have : ¬ (validSessionIdFormat sessionId = true) := by
      rw [hv]
      exact Bool.false_ne_true
    rw [if_neg this]

/-- A fixed external signer for concrete witnesses. -/
def sampleSign : String → String → String := fun _ _ => "tok"

/-- A stored session under a valid-format identifier, for the C3 witness. -/
def sessJoin : Session :=
  ⟨"ABCD1234", "ABCD1234", some "alice", 0, ["alice"], false, none, none⟩

/-- Witness for C3 exercising the existing, auto-create and malformed
paths. -/
theorem join_idempotent_create_witness :
    ((joinRoute sampleSign "ws://x" [sessJoin] "ABCD1234" (some "bob") 0 "r1").status =
        200 ∧
      (joinRoute sampleSign "ws://x" [sessJoin] "ABCD1234" (some "bob") 0 "r1").response =
        some (generateToken sampleSign "ws://x" sessJoin.roomName (some "bob") 0 "r1") ∧
      (joinRoute sampleSign "ws://x" [sessJoin] "ABCD1234" (some "bob") 0
          "r1").registry.length = [sessJoin].length) ∧
    ((joinRoute sampleSign "ws://x" [] "ABCD1234" (some "bob") 0 "r1").registry.length =
        List.length ([] : Registry) + 1) ∧
    ((getSession (joinRoute sampleSign "ws://x" [] "ABCD1234" (some "bob") 0
        "r1").registry "ABCD1234").map Session.sessionId = some "ABCD1234") ∧
    (getSession (joinRoute sampleSign "ws://x" [] "ABCD1234" (some "bob") 0
        "r1").registry "ZZ" = getSession ([] : Registry) "ZZ") ∧
    (joinRoute sampleSign "ws://x" [] "ab" (some "bob") 0 "r1" =
      { status := 400, registry := [], response := none }) :=
  ⟨(join_idempotent_create sampleSign "ws://x" [sessJoin] "ABCD1234" (some "bob") 0
      "r1").1 (by decide) |>.1 sessJoin rfl,
   ((join_idempotent_create sampleSign "ws://x" [] "ABCD1234" (some "bob") 0
      "r1").1 (by decide) |>.2 rfl).2.1,
   ((join_idempotent_create sampleSign "ws://x" [] "ABCD1234" (some "bob") 0
      "r1").1 (by decide) |>.2 rfl).2.2.1,
   ((join_idempotent_create sampleSign "ws://x" [] "ABCD1234" (some "bob") 0
      "r1").1 (by decide) |>.2 rfl).2.2.2 "ZZ" (by decide),
   (join_idempotent_create sampleSign "ws://x" [] "ab" (some "bob") 0 "r1").2
      (by decide) rfl⟩

/-- A webhook environment for concrete witnesses. -/
def sampleWenv : WebhookEnv :=
  ⟨⟨Except.ok [], Except.ok "EG_1"⟩, ⟨none, Except.ok (), none⟩⟩

/-- C8 (counterexample): with the correct bearer secret, an error raised
while processing a recognized event kind (`egress_ended` with its payload
object absent) is answered 500 — not 200 as the claim states. -/
theorem webhook_error_not_acked :
    (webhookRoute "secret" (some "Bearer secret") sampleCfg sampleWenv [] [] 0
        ⟨"egress_ended", none, none, none⟩).1 = 500 ∧
    (webhookRoute "secret" (some "Bearer secret") sampleCfg sampleWenv [] [] 0
        ⟨"egress_ended", none, none, none⟩).1 ≠ 200 :=
  ⟨rfl, by decide⟩

/-- C8 (amended): 401 on a wrong bearer secret; 200 with no state change
for an unrecognized event kind; an error raised while processing a
recognized event is logged and answered 500 with the state unchanged,
while a handler that returns (recording-operation failures are swallowed
inside the handlers) is answered 200 with its updated state. -/
theorem webhook_status_codes (secret : String) (auth : Option String)
    (cfg : R2Config) (wenv : WebhookEnv) (st : Registry) (store : Store)
    (now : Int) (event : WebhookEvent) :
    (auth ≠ some ("Bearer " ++ secret) →
      webhookRoute secret auth cfg wenv st store now event = (401, st, store)) ∧
    (auth = some ("Bearer " ++ secret) → event.event ∉ recognizedKinds →
      webhookRoute secret auth cfg wenv st store now event = (200, st, store)) ∧
    (auth = some ("Bearer " ++ secret) → ∀ m,
      webhookDispatch cfg wenv st store now event = some (Except.error m) →
      webhookRoute secret auth cfg wenv st store now event = (500, st, store)) ∧
    (auth = some ("Bearer " ++ secret) → ∀ st' store',
      webhookDispatch cfg wenv st store now event = some (Except.ok (st', store')) →
      webhookRoute secret auth cfg wenv st store now event = (200, st', store')) := by
  refine ⟨?_, ?_, ?_, ?_⟩
  · intro h
    unfold webhookRoute
    have hcond : ¬ ((auth == some ("Bearer " ++ secret)) = true) := by
      simp [h]
    rw [if_neg hcond]
  · intro ha hk
    unfold webhookRoute
    have hcond : (auth == some ("Bearer " ++ secret)) = true := by
      rw [ha]
      exact beq_self_eq_true _
    rw [if_pos hcond]
    have hd : webhookDispatch cfg wenv st store now event = none := by
      simp [recognizedKinds] at hk
      obtain ⟨h1, h2, h3, h4⟩ := hk
      unfold webhookDispatch
      rw [if_neg (by simp [h1]), if_neg (by simp [h2]), if_neg (by simp [h3]),
        if_neg (by simp [h4])]
    rw [hd]
  · intro ha m hdm
    unfold webhookRoute
    have hcond : (auth == some ("Bearer " ++ secret)) = true := by
      rw [ha]
      exact beq_self_eq_true _
    rw [if_pos hcond, hdm]
  · intro ha st' store' hdm
    unfold webhookRoute
    have hcond : (auth == some ("Bearer " ++ secret)) = true := by
      rw [ha]
      exact beq_self_eq_true _
    rw [if_pos hcond, hdm]

/-- Witness for the amended C8, exercising all four response outcomes. -/
theorem webhook_status_codes_witness :
    (webhookRoute "s" none sampleCfg sampleWenv [] [] 0
        ⟨"room_started", none, none, none⟩ = (401, [], [])) ∧
    (webhookRoute "s" (some "Bearer s") sampleCfg sampleWenv [] [] 0
        ⟨"room_started", none, none, none⟩ = (200, [], [])) ∧
    (webhookRoute "s" (some "Bearer s") sampleCfg sampleWenv [] [] 0
        ⟨"participant_left", none, none, none⟩ = (500, [], [])) ∧
    (webhookRoute "s" (some "Bearer s") sampleCfg sampleWenv [] [] 0
        ⟨"egress_started", none, none, some completeInfo⟩ = (200, [], [])) :=
  ⟨(webhook_status_codes "s" none sampleCfg sampleWenv [] [] 0
      ⟨"room_started", none, none, none⟩).1 (by simp),
   (webhook_status_codes "s" (some "Bearer s") sampleCfg sampleWenv [] [] 0
      ⟨"room_started", none, none, none⟩).2.1 rfl (by decide),
   (webhook_status_codes "s" (some "Bearer s") sampleCfg sampleWenv [] [] 0
      ⟨"participant_left", none, none, none⟩).2.2.1 rfl
      "TypeError: cannot read name of undefined" rfl,
   (webhook_status_codes "s" (some "Bearer s") sampleCfg sampleWenv [] [] 0
      ⟨"egress_started", none, none, some completeInfo⟩).2.2.2 rfl [] [] rfl⟩

end Stotra
